import Mathlib

/-!
Verification of the Sentiment Analysis Dashboard core pipeline.

The embedding follows src/stock_sentiment_app.py (the complete implementation)
and, where the repository ships only declarations with docstrings
(src/app/scraper.py, src/app/data.py, src/app/sentiment.py have empty bodies),
models the missing bodies from the specification. Python floats are embedded
as rationals; the external sentiment library (TextBlob) and the network are
parameters of the embedded functions.
-/

namespace SentimentDashboard

/-- Sentiment classification labels produced by the threshold rule. -/
inductive Label
  | Positive
  | Negative
  | Neutral
deriving DecidableEq, Repr

/-- A raw news item as returned by the external news provider. Every field may
be absent; consumers apply defaults via dictionary lookup with a default, which
we embed as Option.getD. The publish time is either an integer timestamp or
the sentinel for unknown, embedded as an Option. -/
structure ArticleRecord where
  title : Option String
  link : Option String
  publisher : Option String
  summary : Option String
  providerPublishTime : Option Int
deriving DecidableEq, Repr

/-- The four-tuple returned by analyze_sentiment in the source:
(polarity, subjectivity, sentiment_label, emoji). -/
structure SentimentResult where
  polarity : ℚ
  subjectivity : ℚ
  label : Label
  emoji : String
deriving DecidableEq, Repr

namespace StockApp

/-- Embedding of analyze_sentiment from src/stock_sentiment_app.py. The
TextBlob sentiment model is the parameter `model`, mapping a text to its
(polarity, subjectivity) pair. The Python guard `if not text` is true for a
string exactly when it is empty, so only the empty string short-circuits. -/
def analyze_sentiment (model : String → ℚ × ℚ) (text : String) : SentimentResult :=
  if text = "" then
    ⟨0, 0, Label.Neutral, "😐"⟩
  else
    let ps := model text
    let polarity := ps.1
    let subjectivity := ps.2
    if polarity > 1/10 then
      ⟨polarity, subjectivity, Label.Positive, "😊"⟩
    else if polarity < -(1/10) then
      ⟨polarity, subjectivity, Label.Negative, "😠"⟩
    else
      ⟨polarity, subjectivity, Label.Neutral, "😐"⟩

/-- Records whether analyze_sentiment in src/stock_sentiment_app.py reaches the
line constructing a TextBlob: it does exactly when the empty-input guard
`if not text` is not taken, that is, when the string is non-empty. -/
def analyze_sentiment_callsModel (text : String) : Bool :=
  if text = "" then false else true

/-- Embedding of get_stock_news from src/stock_sentiment_app.py. The outcome
of the external provider call (yf.Search) is the parameter: an exception is
Except.error, a returned list is Except.ok. The source catches every
exception and returns an empty list, and truncates a non-empty result with
`news[:num_articles]`, embedded as List.take. -/
def get_stock_news (provider : Except String (List ArticleRecord))
    (num_articles : Nat) : List ArticleRecord :=
  match provider with
  | Except.ok news => if news = [] then [] else news.take num_articles
  | Except.error _ => []

/-- One row of the results table built by analyze_stock_news_sentiment in
src/stock_sentiment_app.py. -/
structure ResultRow where
  title : String
  publisher : String
  link : String
  polarity : ℚ
  subjectivity : ℚ
  sentiment : Label
  emoji : String
  published : Option Int
deriving DecidableEq, Repr

/-- The per-article body of the loop in analyze_stock_news_sentiment from
src/stock_sentiment_app.py: score the concatenation of title and summary and
package one result row, with the default values of the dictionary lookups. -/
def mkResultRow (model : String → ℚ × ℚ) (article : ArticleRecord) : ResultRow :=
  let full_text := article.title.getD "" ++ " " ++ article.summary.getD ""
  let s := analyze_sentiment model full_text
  ⟨article.title.getD "No title", article.publisher.getD "Unknown",
    article.link.getD "#", s.polarity, s.subjectivity, s.label, s.emoji,
    article.providerPublishTime⟩

/-- The four-tuple returned by analyze_stock_news_sentiment in
src/stock_sentiment_app.py: (avg_polarity, avg_subjectivity,
overall_sentiment, news_df). -/
structure StockAnalysisResult where
  avg_polarity : ℚ
  avg_subjectivity : ℚ
  overall_sentiment : Label
  news_df : List ResultRow
deriving DecidableEq, Repr

/-- Embedding of analyze_stock_news_sentiment from src/stock_sentiment_app.py.
It fetches news, returns the zero result on an empty fetch, otherwise builds
one row per article, and on a non-empty table takes the pandas column means
(sum divided by length) and classifies the average polarity with the same
inline threshold rule as analyze_sentiment; the else branch resets the
averages and label for an empty table. -/
def analyze_stock_news_sentiment (model : String → ℚ × ℚ)
    (provider : Except String (List ArticleRecord)) (num_articles : Nat) :
    StockAnalysisResult :=
  let news_articles := get_stock_news provider num_articles
  if news_articles = [] then
    ⟨0, 0, Label.Neutral, []⟩
  else
    let news_df := news_articles.map (mkResultRow model)
    if news_df = [] then
      ⟨0, 0, Label.Neutral, news_df⟩
    else
      let avg_polarity := (news_df.map (fun r => r.polarity)).sum / (news_df.length : ℚ)
      let avg_subjectivity :=
        (news_df.map (fun r => r.subjectivity)).sum / (news_df.length : ℚ)
      let overall_sentiment :=
        if avg_polarity > 1/10 then Label.Positive
        else if avg_polarity < -(1/10) then Label.Negative
        else Label.Neutral
      ⟨avg_polarity, avg_subjectivity, overall_sentiment, news_df⟩

end StockApp

namespace AppModules

/-- Outcome of the HTTP GET and HTML parse performed for one URL. A network
error or timeout is `failure`; a received response carries its status code and
either the texts of the paragraph elements remaining after removal of script,
style, header, footer and nav elements, or none when parsing raised. -/
inductive FetchOutcome
  | response (status : Nat) (paragraphs : Option (List String))
  | failure
deriving DecidableEq, Repr

/-- Collapse every whitespace run to a single space and trim both ends. -/
def collapseWhitespace (s : String) : String :=
  String.intercalate " " ((s.split Char.isWhitespace).filter (fun w => w ≠ ""))

/-- Modelled from the spec: the body of extract_article_text in
src/app/scraper.py is absent (declaration and docstring only). Following
section 4.2: any network error, timeout, parse error or non-200 status yields
the empty string; on success the paragraph texts are joined with single
spaces, whitespace runs are collapsed, the result is trimmed, and one known
boilerplate substring (a denylist parameter here) is removed. The function
always returns normally with a string. -/
def extract_article_text (boilerplate : String) (fetch : String → FetchOutcome)
    (url : String) : String :=
  match fetch url with
  | FetchOutcome.failure => ""
  | FetchOutcome.response status paragraphs =>
    if status ≠ 200 then ""
    else
      match paragraphs with
      | none => ""
      | some ps =>
        (collapseWhitespace (String.intercalate " " ps)).replace boilerplate ""

/-- One processed article as assembled by process_article in src/app/data.py:
the record fields with defaults, the headline score, the full-text score, the
display text, and the raw extracted text kept for corpus-wide aggregation. -/
structure ProcessedArticle where
  title : String
  publisher : String
  link : String
  headline : SentimentResult
  fulltext : SentimentResult
  displayText : String
  rawText : String
  published : Option Int
deriving DecidableEq, Repr

/-- Display-text truncation from section 4.4: at most 500 characters, with a
trailing ellipsis marker when truncated. -/
def truncateDisplay (s : String) : String :=
  if s.length > 500 then s.take 500 ++ "..." else s

/-- Modelled from the spec: the body of process_article in src/app/data.py is
absent (declaration and docstring only). Following section 4.4: the headline
score is the scorer applied to title and summary; the extractor is called on
the link exactly when the link is non-empty; the full-text score is the score
of the extracted text when that text is non-empty and otherwise the headline
score verbatim, with the display text then set to the fixed placeholder. The
scorer is the section 4.1 rule, embedded as StockApp.analyze_sentiment. -/
def process_article (model : String → ℚ × ℚ) (extractor : String → String)
    (article : ArticleRecord) : ProcessedArticle :=
  let headline :=
    StockApp.analyze_sentiment model
      (article.title.getD "" ++ " " ++ article.summary.getD "")
  let link := article.link.getD ""
  let rawText := if link = "" then "" else extractor link
  let fulltext :=
    if rawText = "" then headline else StockApp.analyze_sentiment model rawText
  let displayText :=
    if rawText = "" then "Could not extract full article text."
    else truncateDisplay rawText
  ⟨article.title.getD "No title", article.publisher.getD "Unknown", link,
    headline, fulltext, displayText, rawText, article.providerPublishTime⟩

/-- Records whether process_article invokes the Article Text Extractor, and
hence the network: per section 4.4 it does exactly when the link resolved at
the fetch boundary is non-empty. -/
def process_article_callsExtractor (article : ArticleRecord) : Bool :=
  if article.link.getD "" = "" then false else true

/-- The five-tuple returned by analyze_stock_news_sentiment in
src/app/data.py per its docstring: (avg_polarity, avg_subjectivity,
overall_sentiment, news_df, combined_sentiment), with the combined sentiment
absent when no article yielded extractable text. -/
structure AnalysisResult where
  avg_polarity : ℚ
  avg_subjectivity : ℚ
  overall_sentiment : Label
  articles : List ProcessedArticle
  combined : Option SentimentResult
deriving DecidableEq, Repr

/-- Modelled from the spec: the body of analyze_stock_news_sentiment in
src/app/data.py is absent (declaration and docstring only). Following section
4.5: fetch the news; on an empty fetch return zero averages, Neutral label,
empty article sequence and absent combined sentiment; otherwise process every
article in fetch order, average the full-text polarities and subjectivities
arithmetically, classify the average polarity with the section 4.1 rule, and
score the space-joined concatenation of the non-empty raw texts as the
combined sentiment, absent when that concatenation is empty. -/
def analyze_stock_news_sentiment (model : String → ℚ × ℚ)
    (extractor : String → String) (provider : Except String (List ArticleRecord))
    (num_articles : Nat) : AnalysisResult :=
  let news := StockApp.get_stock_news provider num_articles
  if news = [] then
    ⟨0, 0, Label.Neutral, [], none⟩
  else
    let processed := news.map (process_article model extractor)
    let avg_polarity :=
      (processed.map (fun a => a.fulltext.polarity)).sum / (processed.length : ℚ)
    let avg_subjectivity :=
      (processed.map (fun a => a.fulltext.subjectivity)).sum / (processed.length : ℚ)
    let overall_sentiment :=
      if avg_polarity > 1/10 then Label.Positive
      else if avg_polarity < -(1/10) then Label.Negative
      else Label.Neutral
    let combinedText :=
      String.intercalate " " ((processed.map (fun a => a.rawText)).filter (fun t => t ≠ ""))
    let combined :=
      if combinedText = "" then none
      else some (StockApp.analyze_sentiment model combinedText)
    ⟨avg_polarity, avg_subjectivity, overall_sentiment, processed, combined⟩

end AppModules

/-! Theorems settling the claims. -/

/-- Claim C1: for every non-empty input text whose delegate sentiment model
yields polarity p, analyze_sentiment returns label Positive with emoji 😊 iff
p > 0.1, label Negative with emoji 😠 iff p < -0.1, and label Neutral with
emoji 😐 otherwise; in particular at the boundary values p = 0.1 and
p = -0.1 the label is Neutral. -/
theorem analyze_sentiment_threshold (model : String → ℚ × ℚ) (text : String)
    (p s : ℚ) (hne : text ≠ "") (hm : model text = (p, s)) :
    (((StockApp.analyze_sentiment model text).label = Label.Positive ∧
        (StockApp.analyze_sentiment model text).emoji = "😊") ↔ p > 1/10) ∧
    (((StockApp.analyze_sentiment model text).label = Label.Negative ∧
        (StockApp.analyze_sentiment model text).emoji = "😠") ↔ p < -(1/10)) ∧
    (((StockApp.analyze_sentiment model text).label = Label.Neutral ∧
        (StockApp.analyze_sentiment model text).emoji = "😐") ↔
      (¬ p > 1/10 ∧ ¬ p < -(1/10))) ∧
    (p = 1/10 → (StockApp.analyze_sentiment model text).label = Label.Neutral) ∧
    (p = -(1/10) → (StockApp.analyze_sentiment model text).label = Label.Neutral) := by
  have hres : StockApp.analyze_sentiment model text =
      if p > 1/10 then ⟨p, s, Label.Positive, "😊"⟩
      else if p < -(1/10) then ⟨p, s, Label.Negative, "😠"⟩
      else ⟨p, s, Label.Neutral, "😐"⟩ := by
    unfold StockApp.analyze_sentiment
    rw [if_neg hne, hm]
  by_cases h1 : p > 1/10
  · have h2 : ¬ p < -(1/10) := by linarith
    rw [hres, if_pos h1]
    refine ⟨?_, ?_, ?_, ?_, ?_⟩
    · exact iff_of_true ⟨rfl, rfl⟩ h1
    · exact iff_of_false (fun h => Label.noConfusion h.1) h2
    · exact iff_of_false (fun h => Label.noConfusion h.1) (fun h => h.1 h1)
    · intro hb; rw [hb] at h1; norm_num at h1
    · intro hb; rw [hb] at h1; norm_num at h1
  · by_cases h2 : p < -(1/10)
    · rw [hres, if_neg h1, if_pos h2]
      refine ⟨?_, ?_, ?_, ?_, ?_⟩
      · exact iff_of_false (fun h => Label.noConfusion h.1) h1
      · exact iff_of_true ⟨rfl, rfl⟩ h2
      · exact iff_of_false (fun h => Label.noConfusion h.1) (fun h => h.2 h2)
      · intro hb; rw [hb] at h2; norm_num at h2
      · intro hb; rw [hb] at h2; norm_num at h2
    · rw [hres, if_neg h1, if_neg h2]
      refine ⟨?_, ?_, ?_, ?_, ?_⟩
      · exact iff_of_false (fun h => Label.noConfusion h.1) h1
      · exact iff_of_false (fun h => Label.noConfusion h.1) h2
      · exact iff_of_true ⟨rfl, rfl⟩ ⟨h1, h2⟩
      · intro _; rfl
      · intro _; rfl

/-- Witness for claim C1 at the concrete text "good earnings" with a delegate
yielding polarity 1/5 and subjectivity 0: the label is Positive. -/
theorem analyze_sentiment_threshold_witness :
    (StockApp.analyze_sentiment (fun _ => ((1:ℚ)/5, 0)) "good earnings").label =
      Label.Positive :=
  ((analyze_sentiment_threshold (fun _ => ((1:ℚ)/5, 0)) "good earnings"
    ((1:ℚ)/5) 0 (by decide) rfl).1.mpr (by norm_num)).1

/-- Counterexample to claim C4 as stated: the whitespace-only input " " is
not caught by the empty-input guard (`if not text` is false for a non-empty
string), so the external model IS consulted, and with a delegate yielding
polarity 1/2 the returned tuple is Positive rather than the fixed Neutral
tuple. -/
theorem analyze_sentiment_whitespace_cex :
    StockApp.analyze_sentiment_callsModel " " = true ∧
    StockApp.analyze_sentiment (fun _ => ((1:ℚ)/2, (1:ℚ)/2)) " " =
      ⟨1/2, 1/2, Label.Positive, "😊"⟩ := by
  constructor
  · rfl
  · unfold StockApp.analyze_sentiment
    rw [if_neg (by decide : ¬(" " = ""))]
    norm_num

/-- Claim C4 amended: for the empty input string, analyze_sentiment returns
exactly polarity 0.0, subjectivity 0.0, label Neutral, emoji 😐 without
calling the external sentiment model; a whitespace-only non-empty string is
instead passed to the model. -/
theorem analyze_sentiment_empty (model : String → ℚ × ℚ) :
    StockApp.analyze_sentiment model "" = ⟨0, 0, Label.Neutral, "😐"⟩ ∧
    StockApp.analyze_sentiment_callsModel "" = false ∧
    StockApp.analyze_sentiment_callsModel " " = true := by
  refine ⟨rfl, rfl, rfl⟩

/-- Claim C6: when the external news provider call raises an exception or
returns no items, get_stock_news returns the empty sequence; the exception is
absorbed, not propagated (the embedded function maps the error outcome to a
normal return value). -/
theorem get_stock_news_failure (num_articles : Nat) (e : String) :
    StockApp.get_stock_news (Except.error e) num_articles = [] ∧
    StockApp.get_stock_news (Except.ok []) num_articles = [] := by
  constructor
  · rfl
  · simp [StockApp.get_stock_news]

/-- Claim C7: on a successful provider call with result list l, get_stock_news
returns `l.take num_articles`: an initial segment of l (there is a rest with
result ++ rest = l), of length at most num_articles, preserving the
provider-given order. -/
theorem get_stock_news_initial_segment (l : List ArticleRecord) (num_articles : Nat) :
    StockApp.get_stock_news (Except.ok l) num_articles = l.take num_articles ∧
    (StockApp.get_stock_news (Except.ok l) num_articles).length ≤ num_articles ∧
    ∃ rest, StockApp.get_stock_news (Except.ok l) num_articles ++ rest = l := by
  have htake : StockApp.get_stock_news (Except.ok l) num_articles = l.take num_articles := by
    cases l with
    | nil => simp [StockApp.get_stock_news]
    | cons a t => simp [StockApp.get_stock_news]
  refine ⟨htake, ?_, ?_⟩
  · rw [htake]
    exact le_trans (le_of_eq (List.length_take _ _)) (min_le_left _ _)
  · exact ⟨l.drop num_articles, by rw [htake]; exact List.take_append_drop _ _⟩

/-- Claim C3: when the fetch yields no articles, both aggregators return
average polarity 0, average subjectivity 0, overall label Neutral and an
empty article sequence, and the src/app version additionally an absent
combined sentiment; the result is an ordinary return value, with no division
by zero (the mean branch is not reached at all). -/
theorem aggregator_empty_fetch (model : String → ℚ × ℚ)
    (extractor : String → String) (provider : Except String (List ArticleRecord))
    (num_articles : Nat)
    (h : StockApp.get_stock_news provider num_articles = []) :
    StockApp.analyze_stock_news_sentiment model provider num_articles =
      ⟨0, 0, Label.Neutral, []⟩ ∧
    AppModules.analyze_stock_news_sentiment model extractor provider num_articles =
      ⟨0, 0, Label.Neutral, [], none⟩ := by
  constructor
  · simp [StockApp.analyze_stock_news_sentiment, h]
  · simp [AppModules.analyze_stock_news_sentiment, h]

/-- Witness for claim C3: a provider that returns the empty list. -/
theorem aggregator_empty_fetch_witness :
    StockApp.analyze_stock_news_sentiment (fun _ => (0, 0)) (Except.ok []) 5 =
      ⟨0, 0, Label.Neutral, []⟩ ∧
    AppModules.analyze_stock_news_sentiment (fun _ => (0, 0)) (fun _ => "")
      (Except.ok []) 5 = ⟨0, 0, Label.Neutral, [], none⟩ :=
  aggregator_empty_fetch (fun _ => (0, 0)) (fun _ => "") (Except.ok []) 5
    (by simp [StockApp.get_stock_news])

/-- Claim C10: when the fetch yields a non-empty list of articles, the result
table of analyze_stock_news_sentiment has exactly one row per fetched article
in fetch order, hence is non-empty, and the averages come from the mean
branch (sum of the column divided by its length), so the fallback branch that
resets the averages and label for an empty table is not taken. -/
theorem aggregator_rows (model : String → ℚ × ℚ)
    (provider : Except String (List ArticleRecord)) (num_articles : Nat)
    (h : StockApp.get_stock_news provider num_articles ≠ []) :
    (StockApp.analyze_stock_news_sentiment model provider num_articles).news_df =
      (StockApp.get_stock_news provider num_articles).map (StockApp.mkResultRow model) ∧
    (StockApp.analyze_stock_news_sentiment model provider num_articles).news_df.length =
      (StockApp.get_stock_news provider num_articles).length ∧
    (StockApp.analyze_stock_news_sentiment model provider num_articles).news_df ≠ [] ∧
    (StockApp.analyze_stock_news_sentiment model provider num_articles).avg_polarity =
      ((StockApp.analyze_stock_news_sentiment model provider num_articles).news_df.map
          (fun r => r.polarity)).sum /
        (((StockApp.analyze_stock_news_sentiment model provider num_articles).news_df.length : ℚ)) ∧
    (StockApp.analyze_stock_news_sentiment model provider num_articles).avg_subjectivity =
      ((StockApp.analyze_stock_news_sentiment model provider num_articles).news_df.map
          (fun r => r.subjectivity)).sum /
        (((StockApp.analyze_stock_news_sentiment model provider num_articles).news_df.length : ℚ)) := by
  have hmap : (StockApp.get_stock_news provider num_articles).map
      (StockApp.mkResultRow model) ≠ [] := by
    simpa using h
  simp only [StockApp.analyze_stock_news_sentiment]
  rw [if_neg h, if_neg hmap]
  exact ⟨rfl, by simp, hmap, rfl, rfl⟩

/-- Witness for claim C10 at a provider returning one concrete article. -/
theorem aggregator_rows_witness :
    (StockApp.analyze_stock_news_sentiment (fun _ => (0, 0))
      (Except.ok [⟨some "Apple up", some "u", some "Pub", some "s", some 7⟩]) 1).news_df =
      (StockApp.get_stock_news
        (Except.ok [⟨some "Apple up", some "u", some "Pub", some "s", some 7⟩]) 1).map
        (StockApp.mkResultRow (fun _ => (0, 0))) :=
  (aggregator_rows (fun _ => (0, 0))
    (Except.ok [⟨some "Apple up", some "u", some "Pub", some "s", some 7⟩]) 1
    (by simp [StockApp.get_stock_news])).1

/-- Claim C9: the overall label of analyze_stock_news_sentiment equals the
label analyze_sentiment assigns when its delegate reports the computed
average polarity — the inline threshold classification in the aggregator
agrees with the scorer of section 4.1 on every average-polarity value,
including the empty-fetch and empty-table branches where the average is 0. -/
theorem overall_label_refines_scorer (model : String → ℚ × ℚ)
    (provider : Except String (List ArticleRecord)) (num_articles : Nat)
    (s : ℚ) (text : String) (hne : text ≠ "") :
    (StockApp.analyze_stock_news_sentiment model provider num_articles).overall_sentiment =
      (StockApp.analyze_sentiment
        (fun _ =>
          ((StockApp.analyze_stock_news_sentiment model provider num_articles).avg_polarity, s))
        text).label := by
  have hscore : ∀ p : ℚ, (StockApp.analyze_sentiment (fun _ => (p, s)) text).label =
      if p > 1/10 then Label.Positive
      else if p < -(1/10) then Label.Negative
      else Label.Neutral := by
    intro p
    unfold StockApp.analyze_sentiment
    rw [if_neg hne]
    simp only [apply_ite SentimentResult.label]
  rw [hscore]
  by_cases hempty : StockApp.get_stock_news provider num_articles = []
  · simp only [StockApp.analyze_stock_news_sentiment]
    rw [if_pos hempty]
    norm_num
  · have hmap : (StockApp.get_stock_news provider num_articles).map
        (StockApp.mkResultRow model) ≠ [] := by
      simpa using hempty
    simp only [StockApp.analyze_stock_news_sentiment]
    rw [if_neg hempty, if_neg hmap]

/-- Witness for claim C9 at a concrete empty provider and the text "x". -/
theorem overall_label_refines_scorer_witness :
    (StockApp.analyze_stock_news_sentiment (fun _ => (0, 0)) (Except.ok []) 3).overall_sentiment =
      (StockApp.analyze_sentiment
        (fun _ =>
          ((StockApp.analyze_stock_news_sentiment (fun _ => (0, 0)) (Except.ok []) 3).avg_polarity,
            (0:ℚ)))
        "x").label :=
  overall_label_refines_scorer (fun _ => (0, 0)) (Except.ok []) 3 0 "x" (by decide)

/-- Claim C2: for a non-empty fetch result, the averages returned by the
src/app aggregator equal the arithmetic mean over all fetched articles of
each article's full-text polarity and subjectivity, where the full-text score
of an article is the one computed by process_article (score of the scraped
body, falling back to the headline score when scraping yields nothing). -/
theorem app_average_is_mean (model : String → ℚ × ℚ) (extractor : String → String)
    (provider : Except String (List ArticleRecord)) (num_articles : Nat)
    (h : StockApp.get_stock_news provider num_articles ≠ []) :
    (AppModules.analyze_stock_news_sentiment model extractor provider num_articles).avg_polarity =
      ((StockApp.get_stock_news provider num_articles).map
          (fun a => (AppModules.process_article model extractor a).fulltext.polarity)).sum /
        ((StockApp.get_stock_news provider num_articles).length : ℚ) ∧
    (AppModules.analyze_stock_news_sentiment model extractor provider num_articles).avg_subjectivity =
      ((StockApp.get_stock_news provider num_articles).map
          (fun a => (AppModules.process_article model extractor a).fulltext.subjectivity)).sum /
        ((StockApp.get_stock_news provider num_articles).length : ℚ) := by
  constructor
  · simp only [AppModules.analyze_stock_news_sentiment, if_neg h, List.map_map,
      List.length_map]
    rfl
  · simp only [AppModules.analyze_stock_news_sentiment, if_neg h, List.map_map,
      List.length_map]
    rfl

/-- Witness for claim C2 at a provider returning one concrete article. -/
theorem app_average_is_mean_witness :
    (AppModules.analyze_stock_news_sentiment (fun _ => (0, 0)) (fun _ => "")
        (Except.ok [⟨some "Apple up", some "u", some "Pub", some "s", some 7⟩]) 1).avg_polarity =
      ((StockApp.get_stock_news
          (Except.ok [⟨some "Apple up", some "u", some "Pub", some "s", some 7⟩]) 1).map
          (fun a => (AppModules.process_article (fun _ => (0, 0)) (fun _ => "") a).fulltext.polarity)).sum /
        ((StockApp.get_stock_news
          (Except.ok [⟨some "Apple up", some "u", some "Pub", some "s", some 7⟩]) 1).length : ℚ) :=
  (app_average_is_mean (fun _ => (0, 0)) (fun _ => "")
    (Except.ok [⟨some "Apple up", some "u", some "Pub", some "s", some 7⟩]) 1
    (by simp [StockApp.get_stock_news])).1

/-- Claim C5: extract_article_text always returns normally with a string (it
is a total function into String); it returns the empty string whenever the
fetch fails (network error, timeout or raise), whenever the response status
differs from 200, and whenever the parse raised. -/
theorem extract_article_text_failures (boilerplate : String)
    (fetch : String → AppModules.FetchOutcome) (url : String) :
    (fetch url = AppModules.FetchOutcome.failure →
      AppModules.extract_article_text boilerplate fetch url = "") ∧
    (∀ status paragraphs, fetch url = AppModules.FetchOutcome.response status paragraphs →
      status ≠ 200 → AppModules.extract_article_text boilerplate fetch url = "") ∧
    (∀ status, fetch url = AppModules.FetchOutcome.response status none →
      AppModules.extract_article_text boilerplate fetch url = "") := by
  refine ⟨?_, ?_, ?_⟩
  · intro hf
    unfold AppModules.extract_article_text
    rw [hf]
  · intro status paragraphs hf hst
    unfold AppModules.extract_article_text
    rw [hf]
    simp [hst]
  · intro status hf
    unfold AppModules.extract_article_text
    rw [hf]
    by_cases hst : status = 200
    · simp [hst]
    · simp [hst]

/-- Witness for claim C5 at a fetch returning status 404. -/
theorem extract_article_text_failures_witness :
    AppModules.extract_article_text ""
      (fun _ => AppModules.FetchOutcome.response 404 (some ["x"])) "u" = "" :=
  (extract_article_text_failures ""
    (fun _ => AppModules.FetchOutcome.response 404 (some ["x"])) "u").2.1
    404 (some ["x"]) rfl (by decide)

/-- Claim C8: for an article whose link is missing or empty, process_article
does not invoke the extractor (hence makes no network call), its full-text
score equals its headline score verbatim, and its display text is the fixed
placeholder. -/
theorem process_article_no_link (model : String → ℚ × ℚ)
    (extractor : String → String) (article : ArticleRecord)
    (h : article.link.getD "" = "") :
    AppModules.process_article_callsExtractor article = false ∧
    (AppModules.process_article model extractor article).fulltext =
      (AppModules.process_article model extractor article).headline ∧
    (AppModules.process_article model extractor article).displayText =
      "Could not extract full article text." := by
  refine ⟨?_, ?_, ?_⟩
  · unfold AppModules.process_article_callsExtractor
    rw [if_pos h]
  · simp [AppModules.process_article, h]
  · simp [AppModules.process_article, h]

/-- Witness for claim C8 at a concrete article with an absent link. -/
theorem process_article_no_link_witness :
    (AppModules.process_article (fun _ => (0, 0)) (fun _ => "body")
        ⟨some "T", none, none, some "S", none⟩).displayText =
      "Could not extract full article text." :=
  (process_article_no_link (fun _ => (0, 0)) (fun _ => "body")
    ⟨some "T", none, none, some "S", none⟩ rfl).2.2

end SentimentDashboard
